import Mathlib

/-!
Verification of the fitstat-server booking / payment / account flow.

The definitions below are a shallow embedding of the JavaScript services of
the repository.  Document-database collections are embedded as maps from
identifier strings to optional records (or as lists where duplication
matters), mongoose documents as Lean structures, and each service method as
a pure function that threads the affected collections explicitly.  A method
that can throw is embedded with an `Except` result paired with the
post-state of every collection it can touch; the error helpers of
`src/middleware/errorHandler.js` are embedded as constructors of HTTP-coded
`AppError` values.
-/

namespace FitStat

/-- HTTP-classified application error, as built by
`class AppError extends Error { constructor(message, statusCode) ... }`
in `src/middleware/errorHandler.js`. -/
structure AppError where
  message : String
  statusCode : Nat
deriving Repr, DecidableEq

/-- Embedding of `validationError(message)` (status 400). -/
def validationError (message : String) : AppError :=
  { message := message, statusCode := 400 }

/-- Embedding of `notFoundError(resource)` (status 404,
message `resource + " not found"`). -/
def notFoundError (resource : String) : AppError :=
  { message := resource ++ " not found", statusCode := 404 }

/-- Embedding of `conflictError(message)` (status 409). -/
def conflictError (message : String) : AppError :=
  { message := message, statusCode := 409 }

/-- Embedding of `serverError(message)` (status 500). -/
def serverError (message : String) : AppError :=
  { message := message, statusCode := 500 }

/-- A mongoose `Class` document (`classSchema` in `src/models/index.js`):
name, description, price, duration, difficulty, category, bookingCount
(default 0, min 0), maxCapacity (default 20, min 1), isActive (default
true). -/
structure ClassRecord where
  name : String
  description : String
  price : ℚ
  duration : Nat
  difficulty : String
  category : String
  bookingCount : Nat
  maxCapacity : Nat
  isActive : Bool
deriving Repr, DecidableEq

/-- The `Class` collection, keyed by document id (`findById`). -/
def ClassStore : Type := String → Option ClassRecord

/-- Pointwise update of the class collection at one id, the effect of a
single-document `findByIdAndUpdate`. -/
def setClass (classes : ClassStore) (classId : String) (c : ClassRecord) :
    ClassStore :=
  fun i => if i = classId then some c else classes i

/-- Embedding of `classService.getClassById`: `Class.findById(classId)`,
throwing `notFoundError('Class')` when absent. -/
def getClassById (classes : ClassStore) (classId : String) :
    Except AppError ClassRecord :=
  match classes classId with
  | none => .error (notFoundError "Class")
  | some c => .ok c

/-- Embedding of `classService.validateClassCapacity(classId,
requestedBookings = 1)`: reads the class via `getClassById`, throws
`validationError('Class is fully booked')` when
`bookingCount + requestedBookings > maxCapacity`, otherwise returns
`true`.  The JavaScript default argument `requestedBookings = 1` is passed
explicitly by the callers below. -/
def validateClassCapacity (classes : ClassStore) (classId : String)
    (requestedBookings : Nat) : Except AppError Bool :=
  match getClassById classes classId with
  | .error e => .error e
  | .ok c =>
    if c.bookingCount + requestedBookings > c.maxCapacity then
      .error (validationError "Class is fully booked")
    else
      .ok true

/-- Embedding of `classService.incrementBookingCount(classId)`:
`findByIdAndUpdate(classId, { $inc: { bookingCount: 1 } }, { new: true })`,
throwing `notFoundError('Class')` when the id matches no document.  The
returned pair is (thrown error or updated document, post-state of the
collection). -/
def incrementBookingCount (classes : ClassStore) (classId : String) :
    Except AppError ClassRecord × ClassStore :=
  match classes classId with
  | none => (.error (notFoundError "Class"), classes)
  | some c =>
    let updated : ClassRecord := { c with bookingCount := c.bookingCount + 1 }
    (.ok updated, setClass classes classId updated)

/-- A payment-gateway intent object as the Stripe SDK returns it
(`stripe.paymentIntents.create` / `retrieve`): the fields the services
read are `id`, `status` and `client_secret`. -/
structure StripePaymentIntent where
  id : String
  status : String
  clientSecret : String
deriving Repr, DecidableEq

/-- The remote gateway state used by `stripe.paymentIntents.retrieve`:
the intents it knows, keyed by intent id.  Retrieval of an unknown id is
the SDK throwing, embedded below as an error result. -/
def IntentStore : Type := String → Option StripePaymentIntent

/-- Result of `paymentService.createPaymentIntent`: the object
`{ clientSecret, paymentIntentId }` returned to the controller. -/
structure IntentCreateResult where
  clientSecret : String
  paymentIntentId : String
deriving Repr, DecidableEq

/-- Embedding of `paymentService.createPaymentIntent(amount, currency)`.
The source guards `if (amount < 50)` with the comment
`// Stripe minimum is $0.50` and otherwise calls
`stripe.paymentIntents.create({ amount: Math.round(amount * 100), ... })`
(comment `// Convert to cents`).  The remote creation is abstracted as the
function `stripeCreate` from the minor-unit amount and currency to the
intent the gateway mints.  Amounts are embedded as rationals and
`Math.round` as `round` (both round halves up on the positive range). -/
def createPaymentIntent (stripeCreate : ℤ → String → StripePaymentIntent)
    (amount : ℚ) (currency : String) : Except AppError IntentCreateResult :=
  if amount < 50 then
    .error (validationError "Amount must be at least $0.50")
  else
    let paymentIntent := stripeCreate (round (amount * 100)) currency
    .ok { clientSecret := paymentIntent.clientSecret,
          paymentIntentId := paymentIntent.id }

/-- A mongoose `Payment` document (`paymentSchema` in
`src/models/index.js`) together with the `refundId` / `refundedAt` fields
that `refundPayment` writes.  `classId` is kept optional because
`processPayment` guards every use of `paymentData.classId`. -/
structure PaymentRecord where
  userEmail : String
  userName : String
  trainerName : String
  trainerEmail : String
  classId : Option String
  packageName : String
  packagePrice : ℚ
  slotName : String
  paymentIntentId : String
  paymentStatus : String
  paymentMethod : String
  currency : String
  refundId : Option String
  refundedAt : Option Nat
deriving Repr, DecidableEq

/-- The request body of `POST /payments` after route validation,
spread into the new `Payment` document by `processPayment`. -/
structure PaymentData where
  userEmail : String
  userName : String
  trainerName : String
  trainerEmail : String
  classId : Option String
  packageName : String
  packagePrice : ℚ
  slotName : String
  paymentIntentId : String
  paymentMethod : String
  currency : String
deriving Repr, DecidableEq

/-- The `Payment` collection, keyed by document id. -/
def PaymentStore : Type := String → Option PaymentRecord

/-- Pointwise update of the payment collection at one id. -/
def setPayment (payments : PaymentStore) (paymentId : String)
    (p : PaymentRecord) : PaymentStore :=
  fun i => if i = paymentId then some p else payments i

/-- The document built by `new Payment({ ...paymentData,
paymentStatus: 'completed' })` in `processPayment`. -/
def mkPaymentRecord (pd : PaymentData) (paymentStatus : String) :
    PaymentRecord :=
  { userEmail := pd.userEmail, userName := pd.userName,
    trainerName := pd.trainerName, trainerEmail := pd.trainerEmail,
    classId := pd.classId, packageName := pd.packageName,
    packagePrice := pd.packagePrice, slotName := pd.slotName,
    paymentIntentId := pd.paymentIntentId, paymentStatus := paymentStatus,
    paymentMethod := pd.paymentMethod, currency := pd.currency,
    refundId := none, refundedAt := none }

/-- Combined post-state of a `processPayment` call: the result or thrown
error, and the `Class` and `Payment` collections after the writes that
happened before any throw. -/
structure ProcessOutcome where
  result : Except AppError PaymentRecord
  classes : ClassStore
  payments : PaymentStore

/-- Embedding of `paymentService.processPayment(paymentData)`:
(1) if `paymentData.classId` is set, run `validateClassCapacity` (with its
default `requestedBookings = 1`); (2) retrieve the intent
`paymentData.paymentIntentId` from the gateway and throw
`validationError('Payment was not successful')` unless its status is
`'succeeded'`; (3) save a new `Payment` document with
`paymentStatus: 'completed'` (its fresh mongo id is the parameter
`freshId`); (4) if `paymentData.classId` is set, run
`incrementBookingCount`.  Retrieval of an unknown intent id is the SDK
throwing, rethrown unchanged and surfaced here as a 500. -/
def processPayment (intents : IntentStore) (classes : ClassStore)
    (payments : PaymentStore) (freshId : String) (pd : PaymentData) :
    ProcessOutcome :=
  let capacity : Except AppError Bool :=
    match pd.classId with
    | some classId => validateClassCapacity classes classId 1
    | none => .ok true
  match capacity with
  | .error e => { result := .error e, classes := classes, payments := payments }
  | .ok _ =>
    match intents pd.paymentIntentId with
    | none =>
      { result := .error (serverError "No such payment_intent"),
        classes := classes, payments := payments }
    | some paymentIntent =>
      if paymentIntent.status ≠ "succeeded" then
        { result := .error (validationError "Payment was not successful"),
          classes := classes, payments := payments }
      else
        let payment := mkPaymentRecord pd "completed"
        let payments1 := setPayment payments freshId payment
        match pd.classId with
        | some classId =>
          match incrementBookingCount classes classId with
          | (.error e, classes1) =>
            { result := .error e, classes := classes1, payments := payments1 }
          | (.ok _, classes1) =>
            { result := .ok payment, classes := classes1,
              payments := payments1 }
        | none =>
          { result := .ok payment, classes := classes, payments := payments1 }

/-- Combined post-state of a `refundPayment` call.  `stripeRefundCalls`
records the `payment_intent` ids passed to `stripe.refunds.create` during
the call, so that "no duplicate refund call reaches the gateway" is a
statement about the embedding.  The `Class` collection is threaded
untouched: the source never reaches into it. -/
structure RefundOutcome where
  result : Except AppError PaymentRecord
  classes : ClassStore
  payments : PaymentStore
  stripeRefundCalls : List String

/-- Embedding of `paymentService.refundPayment(paymentId)`:
`findById` (404 when absent); throw
`validationError('Payment has already been refunded')` when
`paymentStatus` is already `'refunded'`; otherwise call
`stripe.refunds.create({ payment_intent: payment.paymentIntentId })` —
the refund id the gateway mints is abstracted as
`refundIdOf payment.paymentIntentId` — and
`findByIdAndUpdate(paymentId, { paymentStatus: 'refunded',
refundId: refund.id, refundedAt: new Date() }, { new: true })`, with the
wall clock abstracted as `now`. -/
def refundPayment (refundIdOf : String → String) (classes : ClassStore)
    (payments : PaymentStore) (paymentId : String) (now : Nat) :
    RefundOutcome :=
  match payments paymentId with
  | none =>
    { result := .error (notFoundError "Payment"), classes := classes,
      payments := payments, stripeRefundCalls := [] }
  | some payment =>
    if payment.paymentStatus = "refunded" then
      { result := .error (validationError "Payment has already been refunded"),
        classes := classes, payments := payments, stripeRefundCalls := [] }
    else
      let updatedPayment : PaymentRecord :=
        { payment with
          paymentStatus := "refunded",
          refundId := some (refundIdOf payment.paymentIntentId),
          refundedAt := some now }
      { result := .ok updatedPayment, classes := classes,
        payments := setPayment payments paymentId updatedPayment,
        stripeRefundCalls := [payment.paymentIntentId] }

/-- The `socialLinks` sub-document of a user. -/
structure SocialLinks where
  facebook : String
  twitter : String
  instagram : String
  linkedin : String
deriving Repr, DecidableEq

/-- A trainer availability slot (`slotSchema` in `src/models/User.js`);
selected classes are kept as their label/value pairs. -/
structure SlotRecord where
  selectedClasses : List (String × String)
  slotName : String
  slotTime : String
  slotDay : String
deriving Repr, DecidableEq

/-- A mongoose `User` document (`userSchema` in `src/models/User.js`):
role is one of member/trainer/admin (default member), status one of
active/pending/rejected/inactive (default active); the optional trainer
fields and the admin `feedback` text are optional. -/
structure UserRecord where
  name : String
  email : String
  password : Option String
  photoURL : String
  role : String
  status : String
  age : Option Nat
  skills : List String
  availableDays : List String
  hoursPerDay : Option Nat
  experience : Option Nat
  socialLinks : Option SocialLinks
  biodata : Option String
  slots : List SlotRecord
  feedback : Option String
  isEmailVerified : Bool
  lastLogin : Option Nat
deriving Repr, DecidableEq

/-- The `User` collection, keyed by document id (`findById`). -/
def UserStore : Type := String → Option UserRecord

/-- Pointwise update of the user collection at one id. -/
def setUser (users : UserStore) (userId : String) (u : UserRecord) :
    UserStore :=
  fun i => if i = userId then some u else users i

/-- The request body of `PATCH /users/:id/apply` after the route has run
`validate(schemas.trainerApplication)`: validation with
`stripUnknown: true` leaves exactly the schema keys, so in particular no
`role` and no `status` key can reach the service. -/
structure TrainerApplicationData where
  name : String
  age : Nat
  photoURL : String
  skills : List String
  availableDays : List String
  hoursPerDay : Nat
  experience : Nat
  socialLinks : Option SocialLinks
  biodata : String
deriving Repr, DecidableEq

/-- Embedding of `userService.applyForTrainer(userId, applicationData)`:
404 when the user is absent; `validationError('User is already a
trainer')` when `role === 'trainer'`; `validationError('Application is
already pending')` when `status === 'pending'`; otherwise
`findByIdAndUpdate(userId, { ...applicationData, status: 'pending' })`
— the spread sets exactly the application keys (`socialLinks` only when
it was sent) and the explicit `status: 'pending'`, and touches no other
field. -/
def applyForTrainer (users : UserStore) (userId : String)
    (applicationData : TrainerApplicationData) :
    Except AppError UserRecord × UserStore :=
  match users userId with
  | none => (.error (notFoundError "User"), users)
  | some user =>
    if user.role = "trainer" then
      (.error (validationError "User is already a trainer"), users)
    else if user.status = "pending" then
      (.error (validationError "Application is already pending"), users)
    else
      let updatedUser : UserRecord :=
        { user with
          name := applicationData.name,
          age := some applicationData.age,
          photoURL := applicationData.photoURL,
          skills := applicationData.skills,
          availableDays := applicationData.availableDays,
          hoursPerDay := some applicationData.hoursPerDay,
          experience := some applicationData.experience,
          socialLinks :=
            match applicationData.socialLinks with
            | some links => some links
            | none => user.socialLinks,
          biodata := some applicationData.biodata,
          status := "pending" }
      (.ok updatedUser, setUser users userId updatedUser)

/-- The request body of `PATCH /users/application/accept/:id`; the route
schema forces `status: 'active'` and `role: 'trainer'` (both `required`,
`valid(...)` with a single allowed value). -/
structure ApprovalData where
  status : String
  role : String
deriving Repr, DecidableEq

/-- The body of `PATCH /users/application/accept/:id` passes its route
schema: `status` must be the string active and `role` the string
trainer. -/
def acceptBodyValid (d : ApprovalData) : Prop :=
  d.status = "active" ∧ d.role = "trainer"

/-- The request body of `PATCH /users/application/reject/:id`; the route
schema forces `status: 'rejected'` and a `feedback` string of at most 500
characters. -/
structure RejectionData where
  status : String
  feedback : String
deriving Repr, DecidableEq

/-- The body of `PATCH /users/application/reject/:id` passes its route
schema. -/
def rejectBodyValid (d : RejectionData) : Prop :=
  d.status = "rejected" ∧ d.feedback.length ≤ 500

/-- Embedding of `userService.approveTrainerApplication(userId,
approvalData)`: `findByIdAndUpdate(userId, { status: approvalData.status,
role: approvalData.role, $unset: { feedback: 1 } }, ...)`, 404 when the
id matches no document. -/
def approveTrainerApplication (users : UserStore) (userId : String)
    (approvalData : ApprovalData) : Except AppError UserRecord × UserStore :=
  match users userId with
  | none => (.error (notFoundError "User"), users)
  | some user =>
    let updatedUser : UserRecord :=
      { user with
        status := approvalData.status,
        role := approvalData.role,
        feedback := none }
    (.ok updatedUser, setUser users userId updatedUser)

/-- Embedding of `userService.rejectTrainerApplication(userId,
rejectionData)`: `findByIdAndUpdate(userId, { status:
rejectionData.status, feedback: rejectionData.feedback }, ...)`, 404 when
the id matches no document.  The update object has no `role` key. -/
def rejectTrainerApplication (users : UserStore) (userId : String)
    (rejectionData : RejectionData) : Except AppError UserRecord × UserStore :=
  match users userId with
  | none => (.error (notFoundError "User"), users)
  | some user =>
    let updatedUser : UserRecord :=
      { user with
        status := rejectionData.status,
        feedback := some rejectionData.feedback }
    (.ok updatedUser, setUser users userId updatedUser)

/-- Post-state of `authService.forgotPassword(email)`: the returned
message, the user collection after the call, and the log lines written. -/
structure ForgotPasswordOutcome where
  result : Except AppError String
  users : List UserRecord
  logs : List String

/-- Embedding of `authService.forgotPassword(email)`: `User.findOne({
email })`; when no user matches, return the message `If user exists,
password reset link has been sent` without revealing absence; when one
matches, log `Password reset requested` and return `Password reset link
has been sent to your email`.  No branch throws, writes a user document,
or creates any token — the function body contains no save or update
call. -/
def forgotPassword (users : List UserRecord) (email : String) :
    ForgotPasswordOutcome :=
  match users.find? (fun u => u.email == email) with
  | none =>
    { result := .ok "If user exists, password reset link has been sent",
      users := users, logs := [] }
  | some _ =>
    { result := .ok "Password reset link has been sent to your email",
      users := users, logs := ["Password reset requested"] }

/-- Newsletter preferences sub-document (`subscriberSchema`):
topics and a frequency defaulting to weekly. -/
structure Preferences where
  topics : List String
  frequency : String
deriving Repr, DecidableEq

/-- A mongoose `Subscriber` document (`subscriberSchema` in
`src/models/index.js`): unique email, optional name, `isActive`
defaulting to true, preferences. -/
structure Subscriber where
  email : String
  name : Option String
  isActive : Bool
  preferences : Preferences
deriving Repr, DecidableEq

/-- The request body of `POST /newsletter/subscribe` after route
validation. -/
structure SubscriberData where
  email : String
  name : Option String
  preferences : Option Preferences
deriving Repr, DecidableEq

/-- The `Subscriber` collection is kept as a list of documents so that
duplicate documents for one email are expressible; `findOne({ email })`
is the first document with that email. -/
def findSubscriber (store : List Subscriber) (email : String) :
    Option Subscriber :=
  store.find? (fun s => s.email == email)

/-- Saving a modified existing document: replace the first document with
the given email, leave everything else in place. -/
def saveSubscriberByEmail : List Subscriber → String → Subscriber →
    List Subscriber
  | [], _, _ => []
  | t :: ts, email, s =>
    if t.email == email then s :: ts
    else t :: saveSubscriberByEmail ts email s

/-- The in-place mutation of an existing inactive subscriber in
`newsletterService.subscribe`: `isActive = true`, and `name` /
`preferences` only when the request sent them. -/
def reactivateSubscriber (s : Subscriber) (d : SubscriberData) : Subscriber :=
  { s with
    isActive := true,
    name :=
      match d.name with
      | some n => some n
      | none => s.name,
    preferences :=
      match d.preferences with
      | some p => p
      | none => s.preferences }

/-- The document built by `new Subscriber(subscriberData)`: `isActive`
and `preferences.frequency` take their schema defaults. -/
def mkSubscriber (d : SubscriberData) : Subscriber :=
  { email := d.email, name := d.name, isActive := true,
    preferences :=
      match d.preferences with
      | some p => p
      | none => { topics := [], frequency := "weekly" } }

/-- Embedding of `newsletterService.subscribe(subscriberData)`:
`findOne({ email })`; an existing active subscriber throws
`conflictError('Email is already subscribed to newsletter')`; an existing
inactive one is reactivated in place and saved (no new document); an
unknown email gets a new document appended. -/
def subscribe (store : List Subscriber) (d : SubscriberData) :
    Except AppError Subscriber × List Subscriber :=
  match findSubscriber store d.email with
  | some existingSubscriber =>
    if existingSubscriber.isActive then
      (.error (conflictError "Email is already subscribed to newsletter"),
       store)
    else
      let reactivated := reactivateSubscriber existingSubscriber d
      (.ok reactivated, saveSubscriberByEmail store d.email reactivated)
  | none =>
    let subscriber := mkSubscriber d
    (.ok subscriber, store ++ [subscriber])

/-- Embedding of `newsletterService.unsubscribe(email)`: 404 when no
subscriber matches; `validationError('Email is already unsubscribed')`
when already inactive; otherwise set `isActive = false` and save. -/
def unsubscribe (store : List Subscriber) (email : String) :
    Except AppError String × List Subscriber :=
  match findSubscriber store email with
  | none => (.error (notFoundError "Subscriber not found"), store)
  | some subscriber =>
    if subscriber.isActive then
      let updated : Subscriber := { subscriber with isActive := false }
      (.ok "Successfully unsubscribed from newsletter",
       saveSubscriberByEmail store email updated)
    else
      (.error (validationError "Email is already unsubscribed"), store)

/-! ## Sample data used by the concrete witnesses -/

/-- A class that is exactly full: `bookingCount = maxCapacity = 20`. -/
def fullClass : ClassRecord :=
  { name := "Power Yoga", description := "mat class", price := 25,
    duration := 60, difficulty := "Beginner", category := "yoga",
    bookingCount := 20, maxCapacity := 20, isActive := true }

/-- A class with one seat left: `bookingCount = 19`, `maxCapacity = 20`. -/
def openClass : ClassRecord :=
  { name := "Spin", description := "bike class", price := 30,
    duration := 45, difficulty := "Intermediate", category := "cardio",
    bookingCount := 19, maxCapacity := 20, isActive := true }

/-- A class collection holding `fullClass` at id `c1` and `openClass` at
id `c2`. -/
def sampleClasses : ClassStore :=
  fun i => if i = "c1" then some fullClass
    else if i = "c2" then some openClass else none

/-! ## C1: the capacity check -/

/-- C1: for every class record and requested booking count, the capacity
check fails with the capacity-exceeded validation error exactly when
`bookingCount + requested > maxCapacity`, succeeds returning `true`
otherwise, and in particular fails for `requested = 1` once
`bookingCount` has reached `maxCapacity`. -/
theorem validateClassCapacity_spec (classes : ClassStore) (classId : String)
    (c : ClassRecord) (requested : Nat) (hc : classes classId = some c) :
    (validateClassCapacity classes classId requested =
        .error (validationError "Class is fully booked") ↔
      c.bookingCount + requested > c.maxCapacity) ∧
    (c.bookingCount + requested ≤ c.maxCapacity →
      validateClassCapacity classes classId requested = .ok true) ∧
    (c.bookingCount = c.maxCapacity →
      validateClassCapacity classes classId 1 =
        .error (validationError "Class is fully booked")) := by
  simp only [validateClassCapacity, getClassById, hc]
  refine ⟨?_, ?_, ?_⟩
  · split_ifs with h
    · simp [h]
    · simp [h]
  · intro h
    split_ifs with h2
    · omega
    · rfl
  · intro h
    split_ifs with h2
    · rfl
    · omega

/-- C1 witness: a class at `bookingCount = maxCapacity = 20` rejects a
single further booking. -/
theorem validateClassCapacity_spec_witness :
    validateClassCapacity sampleClasses "c1" 1 =
      .error (validationError "Class is fully booked") :=
  (validateClassCapacity_spec sampleClasses "c1" fullClass 1 rfl).2.2 rfl

/-! ## C10: the unconditional booking-counter increment -/

/-- C10: for every existing class, `incrementBookingCount` increments
`bookingCount` by exactly one with no capacity precondition and no
capacity check, leaves every other field of the class and every other
document unchanged, and in particular pushes `bookingCount` strictly past
`maxCapacity` whenever the class was already at or over capacity. -/
theorem incrementBookingCount_spec (classes : ClassStore) (classId : String)
    (c : ClassRecord) (hc : classes classId = some c) :
    incrementBookingCount classes classId =
      (.ok { c with bookingCount := c.bookingCount + 1 },
        setClass classes classId { c with bookingCount := c.bookingCount + 1 }) ∧
    setClass classes classId { c with bookingCount := c.bookingCount + 1 }
        classId = some { c with bookingCount := c.bookingCount + 1 } ∧
    (∀ i, i ≠ classId →
      setClass classes classId { c with bookingCount := c.bookingCount + 1 } i
        = classes i) ∧
    (c.maxCapacity ≤ c.bookingCount →
      c.maxCapacity < ({ c with bookingCount := c.bookingCount + 1 } :
        ClassRecord).bookingCount) := by
  refine ⟨?_, ?_, ?_, ?_⟩
  · simp [incrementBookingCount, hc]
  · simp [setClass]
  · intro i hi
    simp [setClass, hi]
  · intro h
    simp
    omega

/-- C10 witness: incrementing the already-full class `c1` (20 of 20)
succeeds and yields `bookingCount = 21 > maxCapacity = 20`. -/
theorem incrementBookingCount_spec_witness :
    incrementBookingCount sampleClasses "c1" =
      (.ok { fullClass with bookingCount := 21 },
        setClass sampleClasses "c1" { fullClass with bookingCount := 21 }) ∧
    fullClass.maxCapacity < 21 := by
  have h := incrementBookingCount_spec sampleClasses "c1" fullClass rfl
  exact ⟨h.1, by decide⟩

/-! ## C5: the payment-intent amount guard -/

/-- C5 (code bug): the guard `if (amount < 50)` compares the major-unit
amount against the minor-unit minimum.  At `amount = 1` (one dollar, i.e.
`round (1 * 100) = 100 ≥ 50` minor units) the function nevertheless
rejects with the validation error whose own message promises a $0.50
minimum, for every possible gateway behaviour. -/
theorem createPaymentIntent_rejects_one_dollar
    (stripeCreate : ℤ → String → StripePaymentIntent) :
    createPaymentIntent stripeCreate 1 "usd" =
      .error (validationError "Amount must be at least $0.50") ∧
    round ((1 : ℚ) * 100) = (100 : ℤ) ∧ (50 : ℤ) ≤ 100 := by
  refine ⟨?_, by norm_num, by norm_num⟩
  simp only [createPaymentIntent]
  norm_num

/-! ## C2: payment confirmation -/

/-- The gateway knows a succeeded intent `pi_ok` and a non-succeeded
intent `pi_processing`. -/
def sampleIntents : IntentStore :=
  fun i =>
    if i = "pi_ok" then
      some { id := "pi_ok", status := "succeeded", clientSecret := "cs_ok" }
    else if i = "pi_processing" then
      some { id := "pi_processing", status := "processing",
             clientSecret := "cs_pr" }
    else none

/-- An empty payment collection. -/
def noPayments : PaymentStore := fun _ => none

/-- A confirmation request for class `c1` referencing the succeeded
intent `pi_ok`. -/
def samplePaymentData : PaymentData :=
  { userEmail := "member@fit.com", userName := "Member",
    trainerName := "Trainer", trainerEmail := "trainer@fit.com",
    classId := some "c1", packageName := "gold", packagePrice := 25,
    slotName := "morning", paymentIntentId := "pi_ok",
    paymentMethod := "card", currency := "usd" }

/-- C2 counterexample: a request whose gateway intent has status
`succeeded` but whose class `c1` is already full (20 of 20).  The
capacity check throws first, so no completed `PaymentRecord` is
persisted even though the intent succeeded — refuting the claimed
"persists iff the intent status equals succeeded". -/
theorem processPayment_succeeded_intent_without_record :
    sampleIntents "pi_ok" =
      some { id := "pi_ok", status := "succeeded", clientSecret := "cs_ok" } ∧
    (processPayment sampleIntents sampleClasses noPayments "p1"
        samplePaymentData).result =
      .error (validationError "Class is fully booked") ∧
    (processPayment sampleIntents sampleClasses noPayments "p1"
        samplePaymentData).payments "p1" = none := by
  refine ⟨rfl, rfl, rfl⟩

/-- C2 amended: provided the capacity precondition passes (the request
names no class, or the named class exists with
`bookingCount + 1 ≤ maxCapacity`) and the referenced intent exists at the
gateway, `processPayment` persists a `PaymentRecord` with status
`completed` (and returns it) exactly when the intent status equals
`succeeded`; for any other intent status it fails with the validation
error `Payment was not successful` and leaves both the class and the
payment collections unchanged, so no record is created and no
`bookingCount` is incremented. -/
theorem processPayment_spec (intents : IntentStore) (classes : ClassStore)
    (payments : PaymentStore) (freshId : String) (pd : PaymentData)
    (paymentIntent : StripePaymentIntent)
    (hintent : intents pd.paymentIntentId = some paymentIntent)
    (hcap : ∀ classId, pd.classId = some classId →
      ∃ c, classes classId = some c ∧ c.bookingCount + 1 ≤ c.maxCapacity) :
    (mkPaymentRecord pd "completed").paymentStatus = "completed" ∧
    ((processPayment intents classes payments freshId pd).payments freshId =
        some (mkPaymentRecord pd "completed") ∧
      (processPayment intents classes payments freshId pd).result =
        .ok (mkPaymentRecord pd "completed") ↔
      paymentIntent.status = "succeeded") ∧
    (paymentIntent.status ≠ "succeeded" →
      processPayment intents classes payments freshId pd =
        { result := .error (validationError "Payment was not successful"),
          classes := classes, payments := payments }) := by
  refine ⟨rfl, ?_⟩
  have hred : processPayment intents classes payments freshId pd =
      if paymentIntent.status ≠ "succeeded" then
        { result := .error (validationError "Payment was not successful"),
          classes := classes, payments := payments }
      else
        (match pd.classId with
        | some classId =>
          match incrementBookingCount classes classId with
          | (.error e, classes1) =>
            { result := .error e, classes := classes1,
              payments := setPayment payments freshId
                (mkPaymentRecord pd "completed") }
          | (.ok _, classes1) =>
            { result := .ok (mkPaymentRecord pd "completed"),
              classes := classes1,
              payments := setPayment payments freshId
                (mkPaymentRecord pd "completed") }
        | none =>
          { result := .ok (mkPaymentRecord pd "completed"),
            classes := classes,
            payments := setPayment payments freshId
              (mkPaymentRecord pd "completed") }) := by
    unfold processPayment
    rcases hcid : pd.classId with _ | classId
    · simp only [hintent]
    · rcases hcap classId hcid with ⟨c, hcls, hle⟩
      have hval : validateClassCapacity classes classId 1 = .ok true := by
        simp only [validateClassCapacity, getClassById, hcls]
        rw [if_neg (by omega)]
      simp only [hval, hintent]
  by_cases hs : paymentIntent.status = "succeeded"
  · rw [hred, if_neg (by simp [hs])]
    constructor
    · rcases hcid : pd.classId with _ | classId
      · simp [setPayment, hs]
      · rcases hcap classId hcid with ⟨c, hcls, _⟩
        have hinc : incrementBookingCount classes classId =
            (.ok { c with bookingCount := c.bookingCount + 1 },
              setClass classes classId
                { c with bookingCount := c.bookingCount + 1 }) := by
          simp [incrementBookingCount, hcls]
        simp [hinc, setPayment, hs]
    · intro hne
      exact absurd hs hne
  · rw [hred, if_pos (by simp [hs])]
    refine ⟨?_, fun _ => rfl⟩
    simp [hs]

/-- C2 amended witness: booking the class `c2` (19 of 20) with the
succeeded intent `pi_ok` persists the completed record at the fresh id
`p1`. -/
theorem processPayment_spec_witness :
    (processPayment sampleIntents sampleClasses noPayments "p1"
        { samplePaymentData with classId := some "c2" }).payments "p1" =
      some (mkPaymentRecord
        { samplePaymentData with classId := some "c2" } "completed") ∧
    (processPayment sampleIntents sampleClasses noPayments "p1"
        { samplePaymentData with classId := some "c2" }).result =
      .ok (mkPaymentRecord
        { samplePaymentData with classId := some "c2" } "completed") := by
  have h := processPayment_spec sampleIntents sampleClasses noPayments "p1"
    { samplePaymentData with classId := some "c2" }
    { id := "pi_ok", status := "succeeded", clientSecret := "cs_ok" }
    rfl
    (by
      intro classId hcid
      refine ⟨openClass, ?_, by decide⟩
      obtain rfl : classId = "c2" := by
        simpa using congrArg (Option.getD · "") hcid.symm
      rfl)
  exact h.2.1.mpr rfl

/-! ## C3 and C4: refunds -/

/-- A persisted completed payment referencing intent `pi_ok`. -/
def completedPayment : PaymentRecord :=
  { userEmail := "member@fit.com", userName := "Member",
    trainerName := "Trainer", trainerEmail := "trainer@fit.com",
    classId := some "c1", packageName := "gold", packagePrice := 25,
    slotName := "morning", paymentIntentId := "pi_ok",
    paymentStatus := "completed", paymentMethod := "card",
    currency := "usd", refundId := none, refundedAt := none }

/-- A payment that has already been refunded. -/
def refundedPayment : PaymentRecord :=
  { completedPayment with
    paymentIntentId := "pi_old",
    paymentStatus := "refunded",
    refundId := some "re_old",
    refundedAt := some 50 }

/-- A payment collection holding the refunded payment at `pay1` and the
completed one at `pay2`. -/
def samplePayments : PaymentStore :=
  fun i => if i = "pay1" then some refundedPayment
    else if i = "pay2" then some completedPayment else none

/-- A deterministic gateway refund-id minting function for the
witnesses. -/
def sampleRefundIds : String → String :=
  fun intentId => String.append "re_" intentId

/-- C3 counterexample: refunding the already-refunded payment `pay1`
throws `validationError('Payment has already been refunded')`, an HTTP
400, not a conflict (409) as the claim states; the gateway receives no
refund call and the collection is untouched. -/
theorem refundPayment_already_refunded_is_400 :
    (refundPayment sampleRefundIds sampleClasses samplePayments "pay1"
        5).result =
      .error (validationError "Payment has already been refunded") ∧
    (validationError "Payment has already been refunded").statusCode = 400 ∧
    (conflictError "Payment has already been refunded").statusCode = 409 ∧
    validationError "Payment has already been refunded" ≠
      conflictError "Payment has already been refunded" ∧
    (refundPayment sampleRefundIds sampleClasses samplePayments "pay1"
        5).stripeRefundCalls = [] := by
  refine ⟨rfl, rfl, rfl, by decide, rfl⟩

/-- C3 amended: refunding an already-refunded payment fails with the
validation error `Payment has already been refunded` (HTTP 400, not a
409 conflict), makes no refund call to the gateway and leaves the record
unchanged; refunding any other found payment sends exactly one gateway
refund for the stored intent id and saves the record with status
`refunded`, the minted refund id and the timestamp. -/
theorem refundPayment_spec (refundIdOf : String → String)
    (classes : ClassStore) (payments : PaymentStore) (paymentId : String)
    (now : Nat) (p : PaymentRecord) (hp : payments paymentId = some p) :
    (p.paymentStatus = "refunded" →
      refundPayment refundIdOf classes payments paymentId now =
        { result :=
            .error (validationError "Payment has already been refunded"),
          classes := classes, payments := payments,
          stripeRefundCalls := [] }) ∧
    (p.paymentStatus ≠ "refunded" →
      refundPayment refundIdOf classes payments paymentId now =
        { result := .ok
            { p with
              paymentStatus := "refunded",
              refundId := some (refundIdOf p.paymentIntentId),
              refundedAt := some now },
          classes := classes,
          payments := setPayment payments paymentId
            { p with
              paymentStatus := "refunded",
              refundId := some (refundIdOf p.paymentIntentId),
              refundedAt := some now },
          stripeRefundCalls := [p.paymentIntentId] }) := by
  constructor
  · intro hs
    simp [refundPayment, hp, hs]
  · intro hs
    simp [refundPayment, hp, hs]

/-- C3 amended witness: refunding the completed payment `pay2` at time 7
succeeds, records the minted refund id for intent `pi_ok` and sends that
one gateway refund call. -/
theorem refundPayment_spec_witness :
    refundPayment sampleRefundIds sampleClasses samplePayments "pay2" 7 =
      { result := .ok
          { completedPayment with
            paymentStatus := "refunded",
            refundId := some (sampleRefundIds "pi_ok"),
            refundedAt := some 7 },
        classes := sampleClasses,
        payments := setPayment samplePayments "pay2"
          { completedPayment with
            paymentStatus := "refunded",
            refundId := some (sampleRefundIds "pi_ok"),
            refundedAt := some 7 },
        stripeRefundCalls := ["pi_ok"] } :=
  (refundPayment_spec sampleRefundIds sampleClasses samplePayments "pay2" 7
    completedPayment rfl).2 (by decide)

/-- C4: a successful refund touches only the refunded payment document —
the fields `paymentStatus`, `refundId` and `refundedAt` of that one
record — while every other payment document and the entire class
collection (in particular every `bookingCount`) stay exactly as they
were. -/
theorem refundPayment_frame (refundIdOf : String → String)
    (classes : ClassStore) (payments : PaymentStore) (paymentId : String)
    (now : Nat) (p : PaymentRecord) (hp : payments paymentId = some p)
    (hnr : p.paymentStatus ≠ "refunded") :
    (refundPayment refundIdOf classes payments paymentId now).classes =
      classes ∧
    (∀ i, i ≠ paymentId →
      (refundPayment refundIdOf classes payments paymentId now).payments i =
        payments i) ∧
    (refundPayment refundIdOf classes payments paymentId now).payments
        paymentId =
      some
        { p with
          paymentStatus := "refunded",
          refundId := some (refundIdOf p.paymentIntentId),
          refundedAt := some now } := by
  refine ⟨?_, ?_, ?_⟩
  · simp [refundPayment, hp, hnr]
  · intro i hi
    simp [refundPayment, hp, hnr, setPayment, hi]
  · simp [refundPayment, hp, hnr, setPayment]

/-- C4 witness: after refunding `pay2`, the class collection still maps
`c1` to the full class record with `bookingCount = 20`, and the other
payment `pay1` is untouched. -/
theorem refundPayment_frame_witness :
    (refundPayment sampleRefundIds sampleClasses samplePayments "pay2"
        7).classes = sampleClasses ∧
    (refundPayment sampleRefundIds sampleClasses samplePayments "pay2"
        7).payments "pay1" = samplePayments "pay1" ∧
    (refundPayment sampleRefundIds sampleClasses samplePayments "pay2"
        7).payments "pay2" =
      some
        { completedPayment with
          paymentStatus := "refunded",
          refundId := some (sampleRefundIds "pi_ok"),
          refundedAt := some 7 } := by
  have h := refundPayment_frame sampleRefundIds sampleClasses samplePayments
    "pay2" 7 completedPayment rfl (by decide)
  exact ⟨h.1, h.2.1 "pay1" (by decide), h.2.2⟩

/-! ## C6 and C7: trainer applications -/

/-- An active ordinary member. -/
def memberUser : UserRecord :=
  { name := "Alex", email := "alex@fit.com", password := some "hashed",
    photoURL := "", role := "member", status := "active", age := some 30,
    skills := [], availableDays := [], hoursPerDay := none,
    experience := none, socialLinks := none, biodata := none, slots := [],
    feedback := none, isEmailVerified := false, lastLogin := none }

/-- An active trainer. -/
def trainerUser : UserRecord :=
  { memberUser with
    name := "Tess",
    email := "tess@fit.com",
    role := "trainer" }

/-- A member whose application is pending. -/
def pendingUser : UserRecord :=
  { memberUser with
    name := "Pat",
    email := "pat@fit.com",
    status := "pending" }

/-- A user collection with the member at `u1`, the trainer at `u2` and
the pending applicant at `u3`. -/
def sampleUsers : UserStore :=
  fun i => if i = "u1" then some memberUser
    else if i = "u2" then some trainerUser
    else if i = "u3" then some pendingUser else none

/-- A valid trainer-application body. -/
def sampleApplication : TrainerApplicationData :=
  { name := "Alex", age := 30, photoURL := "https://fit.com/alex.png",
    skills := ["yoga"], availableDays := ["Monday"], hoursPerDay := 4,
    experience := 2, socialLinks := none, biodata := "certified coach" }

/-- C6: for every existing user, applying for trainer fails with a
validation error when the role is already `trainer` or the status is
already `pending`; for every other existing user it succeeds, sets the
status to `pending`, and leaves the role (and the email) unchanged. -/
theorem applyForTrainer_spec (users : UserStore) (userId : String)
    (ad : TrainerApplicationData) (user : UserRecord)
    (hu : users userId = some user) :
    (user.role = "trainer" →
      applyForTrainer users userId ad =
        (.error (validationError "User is already a trainer"), users)) ∧
    (user.role ≠ "trainer" → user.status = "pending" →
      applyForTrainer users userId ad =
        (.error (validationError "Application is already pending"), users)) ∧
    (user.role ≠ "trainer" → user.status ≠ "pending" →
      ∃ updatedUser,
        applyForTrainer users userId ad =
          (.ok updatedUser, setUser users userId updatedUser) ∧
        updatedUser.status = "pending" ∧
        updatedUser.role = user.role ∧
        updatedUser.email = user.email) := by
  refine ⟨?_, ?_, ?_⟩
  · intro hr
    simp [applyForTrainer, hu, hr]
  · intro hr hs
    simp [applyForTrainer, hu, hr, hs]
  · intro hr hs
    simp only [applyForTrainer, hu, if_neg hr, if_neg hs]
    exact ⟨_, rfl, rfl, rfl, rfl⟩

/-- C6 witness: the active member `u1` applies successfully and ends up
`pending` while still a member; the trainer `u2` and the pending
applicant `u3` are rejected with the respective validation errors. -/
theorem applyForTrainer_spec_witness :
    (applyForTrainer sampleUsers "u1" sampleApplication).1.map
        UserRecord.status = .ok "pending" ∧
    (applyForTrainer sampleUsers "u1" sampleApplication).1.map
        UserRecord.role = .ok "member" ∧
    applyForTrainer sampleUsers "u2" sampleApplication =
      (.error (validationError "User is already a trainer"), sampleUsers) ∧
    applyForTrainer sampleUsers "u3" sampleApplication =
      (.error (validationError "Application is already pending"),
        sampleUsers) := by
  obtain ⟨updatedUser, hequ, hst, hrole, -⟩ :=
    (applyForTrainer_spec sampleUsers "u1" sampleApplication memberUser
      rfl).2.2 (by decide) (by decide)
  refine ⟨?_, ?_, ?_, ?_⟩
  · rw [hequ]
    simp [Except.map, hst]
  · rw [hequ]
    simp [Except.map, hrole, memberUser]
  · exact (applyForTrainer_spec sampleUsers "u2" sampleApplication
      trainerUser rfl).1 rfl
  · exact (applyForTrainer_spec sampleUsers "u3" sampleApplication
      pendingUser rfl).2.1 (by decide) rfl

/-- C7: for every existing user and route-validated bodies, approval sets
`role = trainer` and `status = active` and removes any stored feedback,
while rejection sets `status = rejected`, stores the feedback text, and
leaves the role unchanged. -/
theorem trainerApplicationDecision_spec (users : UserStore)
    (userId : String) (ad : ApprovalData) (rd : RejectionData)
    (user : UserRecord) (hu : users userId = some user)
    (had : acceptBodyValid ad) (hrd : rejectBodyValid rd) :
    approveTrainerApplication users userId ad =
      (.ok
        { user with status := "active", role := "trainer", feedback := none },
        setUser users userId
          { user with
            status := "active", role := "trainer", feedback := none }) ∧
    rejectTrainerApplication users userId rd =
      (.ok { user with status := "rejected", feedback := some rd.feedback },
        setUser users userId
          { user with status := "rejected", feedback := some rd.feedback }) ∧
    ({ user with status := "rejected", feedback := some rd.feedback } :
        UserRecord).role = user.role := by
  obtain ⟨hads, hadr⟩ := had
  obtain ⟨hrds, -⟩ := hrd
  refine ⟨?_, ?_, rfl⟩
  · simp [approveTrainerApplication, hu, hads, hadr]
  · simp [rejectTrainerApplication, hu, hrds]

/-- C7 witness: approving the pending applicant `u3` yields an active
trainer with no feedback; rejecting them yields a rejected member whose
feedback is stored and whose role is still `member`. -/
theorem trainerApplicationDecision_spec_witness :
    (approveTrainerApplication sampleUsers "u3"
        { status := "active", role := "trainer" }).1 =
      .ok
        { pendingUser with
          status := "active", role := "trainer", feedback := none } ∧
    (rejectTrainerApplication sampleUsers "u3"
        { status := "rejected", feedback := "needs certification" }).1 =
      .ok
        { pendingUser with
          status := "rejected", feedback := some "needs certification" } ∧
    ({ pendingUser with
        status := "rejected",
        feedback := some "needs certification" } : UserRecord).role =
      "member" := by
  have h := trainerApplicationDecision_spec sampleUsers "u3"
    { status := "active", role := "trainer" }
    { status := "rejected", feedback := "needs certification" }
    pendingUser rfl ⟨rfl, rfl⟩ ⟨rfl, by decide⟩
  exact ⟨by rw [h.1], by rw [h.2.1], rfl⟩

/-! ## C9: forgot password -/

/-- C9: `forgotPassword` only logs and answers: for every user collection
and email it leaves every user document unchanged, returns a success
message both for known and unknown emails (so no not-found failure and no
reset token is ever issued — the user schema has no token field and no
branch writes one), and writes at most the single
`Password reset requested` log line. -/
theorem forgotPassword_spec (users : List UserRecord) (email : String) :
    (forgotPassword users email).users = users ∧
    ((forgotPassword users email).result =
        .ok "If user exists, password reset link has been sent" ∨
      (forgotPassword users email).result =
        .ok "Password reset link has been sent to your email") ∧
    ((forgotPassword users email).logs = [] ∨
      (forgotPassword users email).logs = ["Password reset requested"]) := by
  unfold forgotPassword
  cases users.find? (fun u => u.email == email) <;> simp

/-! ## C8: newsletter subscribe / unsubscribe -/

/-- Saving an existing document never changes how many documents the
collection holds. -/
theorem saveSubscriberByEmail_length (store : List Subscriber)
    (email : String) (s : Subscriber) :
    (saveSubscriberByEmail store email s).length = store.length := by
  induction store with
  | nil => rfl
  | cons t ts ih =>
    unfold saveSubscriberByEmail
    split
    · rfl
    · simpa using ih

/-- After saving a document keyed by an email that was already present,
`findOne` returns the saved document. -/
theorem findSubscriber_save (store : List Subscriber) (email : String)
    (s s0 : Subscriber) (hfind : findSubscriber store email = some s0)
    (hs : s.email = email) :
    findSubscriber (saveSubscriberByEmail store email s) email = some s := by
  induction store with
  | nil => simp [findSubscriber] at hfind
  | cons t ts ih =>
    unfold saveSubscriberByEmail
    by_cases ht : t.email = email
    · rw [if_pos (by simpa using ht)]
      simp [findSubscriber, List.find?, hs]
    · rw [if_neg (by simpa using ht)]
      have htb : (t.email == email) = false := by simpa using ht
      have hfind2 : findSubscriber ts email = some s0 := by
        unfold findSubscriber List.find? at hfind
        simpa [htb] using hfind
      have hrec := ih hfind2
      unfold findSubscriber List.find?
      simp only [htb]
      exact hrec

/-- A found subscriber carries the searched email. -/
theorem findSubscriber_email (store : List Subscriber) (email : String)
    (s : Subscriber) (hfind : findSubscriber store email = some s) :
    s.email = email := by
  have := List.find?_some hfind
  simpa using this

/-- C8: for every collection and request whose email already has a
document: if that document is inactive, subscribing reactivates the very
same document in place — the collection keeps its length, `findOne` on
the email yields the reactivated document, and it is active — rather
than creating a duplicate; if it is active, subscribing fails with the
conflict error and changes nothing.  Round trip: for an active document,
unsubscribing and then subscribing again ends with the one document for
that email active and the collection the same size. -/
theorem subscribe_spec (store : List Subscriber) (d : SubscriberData)
    (s : Subscriber) (hfind : findSubscriber store d.email = some s) :
    (s.isActive = true →
      subscribe store d =
        (.error (conflictError "Email is already subscribed to newsletter"),
          store)) ∧
    (s.isActive = false →
      subscribe store d =
        (.ok (reactivateSubscriber s d),
          saveSubscriberByEmail store d.email (reactivateSubscriber s d)) ∧
      (subscribe store d).2.length = store.length ∧
      findSubscriber (subscribe store d).2 d.email =
        some (reactivateSubscriber s d) ∧
      (reactivateSubscriber s d).isActive = true) ∧
    (s.isActive = true →
      (subscribe (unsubscribe store d.email).2 d).2.length = store.length ∧
      findSubscriber (subscribe (unsubscribe store d.email).2 d).2 d.email =
        some (reactivateSubscriber { s with isActive := false } d) ∧
      (reactivateSubscriber { s with isActive := false } d).isActive =
        true) := by
  have hse : s.email = d.email := findSubscriber_email store d.email s hfind
  refine ⟨?_, ?_, ?_⟩
  · intro ha
    simp [subscribe, hfind, ha]
  · intro ha
    have hsub : subscribe store d =
        (.ok (reactivateSubscriber s d),
          saveSubscriberByEmail store d.email (reactivateSubscriber s d)) := by
      simp [subscribe, hfind, ha]
    refine ⟨hsub, ?_, ?_, rfl⟩
    · rw [hsub]
      exact saveSubscriberByEmail_length store d.email
        (reactivateSubscriber s d)
    · rw [hsub]
      exact findSubscriber_save store d.email (reactivateSubscriber s d) s
        hfind (by simpa [reactivateSubscriber] using hse)
  · intro ha
    have huns : (unsubscribe store d.email).2 =
        saveSubscriberByEmail store d.email { s with isActive := false } := by
      simp [unsubscribe, hfind, ha]
    have hfind1 : findSubscriber (unsubscribe store d.email).2 d.email =
        some { s with isActive := false } := by
      rw [huns]
      exact findSubscriber_save store d.email { s with isActive := false } s
        hfind (by simpa using hse)
    have hsub : subscribe (unsubscribe store d.email).2 d =
        (.ok (reactivateSubscriber { s with isActive := false } d),
          saveSubscriberByEmail (unsubscribe store d.email).2 d.email
            (reactivateSubscriber { s with isActive := false } d)) := by
      simp [subscribe, hfind1]
    refine ⟨?_, ?_, rfl⟩
    · rw [hsub]
      have h1 := saveSubscriberByEmail_length (unsubscribe store d.email).2
        d.email (reactivateSubscriber { s with isActive := false } d)
      rw [h1, huns]
      exact saveSubscriberByEmail_length store d.email
        { s with isActive := false }
    · rw [hsub]
      exact findSubscriber_save (unsubscribe store d.email).2 d.email
        (reactivateSubscriber { s with isActive := false } d)
        { s with isActive := false } hfind1 (by simpa using hse)

/-- An unsubscribed newsletter document. -/
def inactiveSub : Subscriber :=
  { email := "a@fit.com", name := some "A", isActive := false,
    preferences := { topics := [], frequency := "weekly" } }

/-- An active newsletter document. -/
def activeSub : Subscriber :=
  { email := "b@fit.com", name := some "B", isActive := true,
    preferences := { topics := ["fitness"], frequency := "weekly" } }

/-- A subscriber collection with one inactive and one active document. -/
def sampleSubscribers : List Subscriber := [inactiveSub, activeSub]

/-- A subscribe request for the inactive email. -/
def subscribeDataA : SubscriberData :=
  { email := "a@fit.com", name := none, preferences := none }

/-- A subscribe request for the active email. -/
def subscribeDataB : SubscriberData :=
  { email := "b@fit.com", name := none, preferences := none }

/-- C8 witness: subscribing the inactive email reactivates its one
document (collection still has 2 documents), subscribing the active
email conflicts, and the unsubscribe-subscribe round trip on the active
email ends active with 2 documents. -/
theorem subscribe_spec_witness :
    (subscribe sampleSubscribers subscribeDataA).2.length = 2 ∧
    findSubscriber (subscribe sampleSubscribers subscribeDataA).2
        "a@fit.com" =
      some (reactivateSubscriber inactiveSub subscribeDataA) ∧
    (reactivateSubscriber inactiveSub subscribeDataA).isActive = true ∧
    subscribe sampleSubscribers subscribeDataB =
      (.error (conflictError "Email is already subscribed to newsletter"),
        sampleSubscribers) ∧
    (subscribe (unsubscribe sampleSubscribers "b@fit.com").2
        subscribeDataB).2.length = 2 ∧
    findSubscriber
        (subscribe (unsubscribe sampleSubscribers "b@fit.com").2
          subscribeDataB).2 "b@fit.com" =
      some (reactivateSubscriber { activeSub with isActive := false }
        subscribeDataB) := by
  have ha := subscribe_spec sampleSubscribers subscribeDataA inactiveSub rfl
  have hb := subscribe_spec sampleSubscribers subscribeDataB activeSub rfl
  obtain ⟨-, hlenA, hfindA, hactA⟩ := ha.2.1 rfl
  obtain ⟨hlenB, hfindB, -⟩ := hb.2.2 rfl
  exact ⟨hlenA, hfindA, hactA, hb.1 rfl, hlenB, hfindB⟩

end FitStat
